import Mathlib

/-!
Shallow embedding of the FIRE2 projection engine.

Sources embedded here:
- `src/js/engine/projectionUtils.js`   (projectYear, getIsaDrawdownAllowed, getSippDrawdownAllowed)
- `src/js/engine/withdrawalStrategy.js` (executeWithdrawal)
- `src/js/engine/pensionEngine.js`     (getPensionIncome)
- `src/unnamed/part_003`               (projectionEngine.js, runProjection — the
  current engine version; `src/unnamed/part_002` is the earlier version that used
  `max(spendingGap, rateDrawdown)` and was superseded)

Modelling conventions:
- JS numbers are modelled as `Rat` (exact rationals); ages and calendar years as `Int`.
- JS `null`/`undefined` fields are `Option _`; `x ?? d` is `Option.getD x d`.
- JS truthiness tests on numbers (`if (override.isaLumpSum)`, `x || d`) treat both
  null and 0 as falsy; helpers `truthyRat`, `orElseNum` model this explicitly.
- `Math.round` is `jsRound x = ⌊x + 1/2⌋` (JS rounds half toward +∞).
- `Rat` division by zero yields 0 (Lean convention); it can only occur in the
  `realTotalNetWorth` output field (when `inflationRate = -100`), which no claim
  touches.
- `new Date().getFullYear()` is modelled as the explicit `currentYear` parameter
  of `runProjection`.
-/

namespace FIRE2

/-- The four pot keys used in `withdrawalOrder` and the balances object. -/
inductive Pot where
  | isa
  | sipp
  | premiumBonds
  | cash
deriving DecidableEq, Repr

/-- A map from pot keys to numbers: used both for the `balances` object and for
the `withdrawn` accumulator of `executeWithdrawal`. -/
structure PotMap where
  isa : Rat
  sipp : Rat
  premiumBonds : Rat
  cash : Rat
deriving DecidableEq, Repr

/-- `m[pot]` (JS bracket access on the balances/withdrawn objects). -/
def PotMap.get (m : PotMap) : Pot → Rat
  | .isa => m.isa
  | .sipp => m.sipp
  | .premiumBonds => m.premiumBonds
  | .cash => m.cash

/-- `m[pot] = v`. -/
def PotMap.set (m : PotMap) : Pot → Rat → PotMap
  | .isa, v => { m with isa := v }
  | .sipp, v => { m with sipp := v }
  | .premiumBonds, v => { m with premiumBonds := v }
  | .cash, v => { m with cash := v }

/-- The all-zero map (`{ isa: 0, sipp: 0, premiumBonds: 0, cash: 0 }`). -/
def PotMap.zero : PotMap := ⟨0, 0, 0, 0⟩

/-- The `constraints` argument of `executeWithdrawal`
(`src/unnamed/part_003` line 222 passes all three flags). -/
structure Constraints where
  isaDrawdownAllowed : Bool
  sippAccessAllowed : Bool
  premiumBondsDrawdownAllowed : Bool
deriving DecidableEq, Repr

/-- Result object of `executeWithdrawal`. -/
structure WithdrawResult where
  balances : PotMap
  withdrawn : PotMap
  shortfall : Rat
deriving DecidableEq, Repr

/-- The `for (const pot of order)` loop of `executeWithdrawal`
(`src/js/engine/withdrawalStrategy.js` lines 23-36), carrying
`(newBalances, withdrawn, remaining)`.  Note the source checks access
constraints only for `sipp` and `premiumBonds` — there is no `isa` check. -/
def executeWithdrawalGo (constraints : Constraints) :
    List Pot → PotMap → PotMap → Rat → PotMap × PotMap × Rat
  | [], newBalances, withdrawn, remaining => (newBalances, withdrawn, remaining)
  | pot :: rest, newBalances, withdrawn, remaining =>
    if remaining ≤ 0 then (newBalances, withdrawn, remaining)
    else if pot = Pot.sipp ∧ constraints.sippAccessAllowed = false then
      executeWithdrawalGo constraints rest newBalances withdrawn remaining
    else if pot = Pot.premiumBonds ∧ constraints.premiumBondsDrawdownAllowed = false then
      executeWithdrawalGo constraints rest newBalances withdrawn remaining
    else
      let available := max 0 (newBalances.get pot)
      let take := min available remaining
      executeWithdrawalGo constraints rest
        (newBalances.set pot (newBalances.get pot - take))
        (withdrawn.set pot (withdrawn.get pot + take))
        (remaining - take)

/-- `executeWithdrawal` from `src/js/engine/withdrawalStrategy.js` lines 18-43. -/
def executeWithdrawal (balances : PotMap) (amount : Rat) (order : List Pot)
    (constraints : Constraints) : WithdrawResult :=
  let r := executeWithdrawalGo constraints order balances PotMap.zero amount
  { balances := r.1, withdrawn := r.2.1, shortfall := max 0 r.2.2 }

/-- `projectYear` from `src/js/engine/projectionUtils.js` lines 24-29. -/
def projectYear (openingBalance growthRate : Rat) (drawdownRate : Rat := 0)
    (lumpSumIn : Rat := 0) (extraDrawOut : Rat := 0) : Rat :=
  let growth := openingBalance * growthRate
  let withdrawal := openingBalance * drawdownRate
  let closing := openingBalance + growth - withdrawal + lumpSumIn - extraDrawOut
  max 0 closing

/-- JS numeric truthiness: `null`/`undefined` and `0` are falsy. -/
def truthyRat : Option Rat → Bool
  | none => false
  | some v => decide (v ≠ 0)

/-- JS `x || d` for a nullable numeric field (`null` and `0` both fall back). -/
def orElseNum (x : Option Int) (d : Int) : Int :=
  match x with
  | none => d
  | some v => if v = 0 then d else v

/-- ISA account configuration (fields of `config.isa` read by the engine). -/
structure IsaConfig where
  enabled : Bool
  balance : Rat
  growthRate : Option Rat
  annualContribution : Rat
  stopContributionAge : Option Int
  drawdownStartAge : Option Int

/-- SIPP account configuration (fields of `config.sipp` read by the engine). -/
structure SippConfig where
  enabled : Bool
  balance : Rat
  growthRate : Option Rat
  annualContribution : Rat
  stopContributionAge : Option Int
  drawdownStartAge : Option Int
  accessAge : Option Int

/-- Premium Bonds configuration (fields of `config.premiumBonds` read by the engine). -/
structure PremiumBondsConfig where
  enabled : Bool
  balance : Rat
  prizeRate : Option Rat
  drawdownStartAge : Option Int

/-- Cash account configuration (fields of `config.cash` read by the engine). -/
structure CashConfig where
  enabled : Bool
  balance : Rat
  growthRate : Option Rat
  annualContribution : Rat
  stopContributionAge : Option Int

/-- Defined-benefit pension configuration (`config.dbPension`). -/
structure DbPensionConfig where
  enabled : Bool
  annualIncome : Rat
  startAge : Int

/-- State pension configuration (`config.statePension`; its start age is the
separate top-level `config.statePensionAge`). -/
structure StatePensionConfig where
  enabled : Bool
  annualIncome : Rat

/-- `config.drawdown`: the default global drawdown rate and the legacy
`phase1Rate` fallback (both percent, nullable). -/
structure DrawdownConfig where
  rate : Option Rat
  phase1Rate : Option Rat

/-- A per-year override record (an entry of `config.overrides`).  All fields are
sparse/nullable.  `cashDrawdownRateOverride` is carried in the data model
(the repository's test suite sets it) but is never read by `runProjection`
in `src/unnamed/part_003`. -/
structure YearOverride where
  isaContributionOverride : Option Rat := none
  sippContributionOverride : Option Rat := none
  isaLumpSum : Option Rat := none
  sippLumpSum : Option Rat := none
  premiumBondLumpSum : Option Rat := none
  cashLumpSum : Option Rat := none
  drawdownRateOverride : Option Rat := none
  sippDrawdownRateOverride : Option Rat := none
  isaDrawdownRateOverride : Option Rat := none
  cashDrawdownRateOverride : Option Rat := none
  isaCustomDrawdown : Option Rat := none
  sippCustomDrawdown : Option Rat := none
  premiumBondsCustomDrawdown : Option Rat := none
  cashCustomDrawdown : Option Rat := none
  note : Option String := none

/-- The empty override object (`config.overrides[year] || {}` fallback). -/
def YearOverride.empty : YearOverride := {}

/-- The full configuration passed to `runProjection`. -/
structure Config where
  currentAge : Int
  retirementAge : Int
  endAge : Int
  inflationRate : Option Rat
  retirementSpending : Rat
  statePensionAge : Int
  isa : IsaConfig
  sipp : SippConfig
  premiumBonds : PremiumBondsConfig
  cash : CashConfig
  dbPension : DbPensionConfig
  statePension : StatePensionConfig
  drawdown : DrawdownConfig
  withdrawalOrder : List Pot
  overrides : Int → Option YearOverride

/-- `getIsaDrawdownAllowed` from `src/js/engine/projectionUtils.js` lines 41-47. -/
def getIsaDrawdownAllowed (config : Config) (age : Int) : Bool :=
  if config.isa.enabled = false then false
  else
    let startAge := (config.isa.drawdownStartAge).getD config.retirementAge
    decide (startAge ≤ age)

/-- `getSippDrawdownAllowed` from `src/js/engine/projectionUtils.js` lines 60-66
(`config.sipp.accessAge || 57` models the JS `||` fallback). -/
def getSippDrawdownAllowed (config : Config) (age : Int) : Bool :=
  if config.sipp.enabled = false then false
  else
    let startAge := (config.sipp.drawdownStartAge).getD (orElseNum config.sipp.accessAge 57)
    decide (startAge ≤ age)

/-- Result of `getPensionIncome` (the redundant `breakdown` field of the JS
object duplicates `dbIncome`/`stateIncome` and is omitted). -/
structure PensionIncome where
  total : Rat
  dbIncome : Rat
  stateIncome : Rat

/-- `getPensionIncome` from `src/js/engine/pensionEngine.js` lines 15-37. -/
def getPensionIncome (config : Config) (age : Int) : PensionIncome :=
  let dbIncome :=
    if config.dbPension.enabled ∧ config.dbPension.startAge ≤ age
    then config.dbPension.annualIncome else 0
  let stateIncome :=
    if config.statePension.enabled ∧ config.statePensionAge ≤ age
    then config.statePension.annualIncome else 0
  { total := dbIncome + stateIncome, dbIncome := dbIncome, stateIncome := stateIncome }

/-- `Math.round` in JS: round half toward +∞, i.e. `⌊x + 1/2⌋`. -/
def jsRound (x : Rat) : Int := ⌊x + 1/2⌋

/-- The Premium Bonds cap (`const PB_CAP = 50000`, `src/unnamed/part_003` line 81). -/
def PB_CAP : Rat := 50000

/-- Cumulative inflation factor from the base year
(`src/unnamed/part_003` lines 56-57): `(1 + (inflationRate ?? 2.5)/100)^i`. -/
def inflationFactor (config : Config) (i : Nat) : Rat :=
  (1 + (config.inflationRate.getD (5/2)) / 100) ^ i

/-- Growth of the ISA pot (`src/unnamed/part_003` lines 72-74). -/
def growIsa (config : Config) (b : PotMap) : PotMap :=
  if config.isa.enabled then
    { b with isa := projectYear b.isa ((config.isa.growthRate.getD 0) / 100) }
  else b

/-- Growth of the SIPP pot (`src/unnamed/part_003` lines 75-77). -/
def growSipp (config : Config) (b : PotMap) : PotMap :=
  if config.sipp.enabled then
    { b with sipp := projectYear b.sipp ((config.sipp.growthRate.getD 0) / 100) }
  else b

/-- Growth of the Premium Bonds pot with the cap (`src/unnamed/part_003`
lines 78-89): excess above `PB_CAP` flows into cash only when cash is enabled,
otherwise it is dropped. -/
def growPremiumBonds (config : Config) (b : PotMap) : PotMap :=
  if config.premiumBonds.enabled then
    let pb := projectYear b.premiumBonds ((config.premiumBonds.prizeRate.getD 0) / 100)
    if pb > PB_CAP then
      let excess := pb - PB_CAP
      let b := { b with premiumBonds := PB_CAP }
      if config.cash.enabled then { b with cash := b.cash + excess } else b
    else { b with premiumBonds := pb }
  else b

/-- Growth of the cash pot (`src/unnamed/part_003` lines 90-92), applied after
the Premium Bonds overflow has been added to cash. -/
def growCash (config : Config) (b : PotMap) : PotMap :=
  if config.cash.enabled then
    { b with cash := projectYear b.cash ((config.cash.growthRate.getD 0) / 100) }
  else b

/-- Step 1 of the yearly loop (`src/unnamed/part_003` lines 59-92): apply growth
to each enabled pot in source order (ISA, SIPP, Premium Bonds with cap, cash). -/
def applyGrowth (config : Config) (b : PotMap) : PotMap :=
  growCash config (growPremiumBonds config (growSipp config (growIsa config b)))

/-- The `!stop || age < stop` test on `stopContributionAge` (JS: null and 0 are
both falsy, meaning contributions never stop). -/
def contributionsOngoing (stop : Option Int) (age : Int) : Bool :=
  match stop with
  | none => true
  | some s => decide (s = 0) || decide (age < s)

/-- The ISA block of Step 2 (`src/unnamed/part_003` lines 102-112): a per-year
contribution override fully replaces the regular contribution. -/
def contribIsa (config : Config) (age : Int) (override : YearOverride)
    (b : PotMap) : PotMap × Rat :=
  if config.isa.enabled then
    match override.isaContributionOverride with
    | some c => ({ b with isa := b.isa + c }, c)
    | none =>
      if contributionsOngoing config.isa.stopContributionAge age then
        ({ b with isa := b.isa + config.isa.annualContribution },
         config.isa.annualContribution)
      else (b, 0)
  else (b, 0)

/-- The SIPP block of Step 2 (`src/unnamed/part_003` lines 113-123). -/
def contribSipp (config : Config) (age : Int) (override : YearOverride)
    (b : PotMap) : PotMap × Rat :=
  if config.sipp.enabled then
    match override.sippContributionOverride with
    | some c => ({ b with sipp := b.sipp + c }, c)
    | none =>
      if contributionsOngoing config.sipp.stopContributionAge age then
        ({ b with sipp := b.sipp + config.sipp.annualContribution },
         config.sipp.annualContribution)
      else (b, 0)
  else (b, 0)

/-- The cash block of Step 2 (`src/unnamed/part_003` lines 124-129): no
override support and no reported contribution. -/
def contribCash (config : Config) (age : Int) (b : PotMap) : PotMap :=
  if config.cash.enabled then
    if contributionsOngoing config.cash.stopContributionAge age then
      { b with cash := b.cash + config.cash.annualContribution }
    else b
  else b

/-- Step 2 (`src/unnamed/part_003` lines 94-130): regular contributions,
pre-retirement only.  Returns the updated balances and the reported
`(isaContribution, sippContribution)` (cash contributions are not reported). -/
def applyContributions (config : Config) (age : Int) (isRetired : Bool)
    (override : YearOverride) (b : PotMap) : PotMap × Rat × Rat :=
  if isRetired then (b, 0, 0)
  else
    let ci := contribIsa config age override b
    let cs := contribSipp config age override ci.1
    let bc := contribCash config age cs.1
    (bc, ci.2, cs.2)

/-- Step 3 (`src/unnamed/part_003` lines 132-136): one-off lump sums, applied
unconditionally (truthiness-gated); ISA/SIPP lump sums also count toward the
reported contribution totals. -/
def applyLumpSums (override : YearOverride) (b : PotMap)
    (isaContribution sippContribution : Rat) : PotMap × Rat × Rat :=
  let (b, isaContribution) :=
    if truthyRat override.isaLumpSum then
      let v := override.isaLumpSum.getD 0
      ({ b with isa := b.isa + v }, isaContribution + v)
    else (b, isaContribution)
  let (b, sippContribution) :=
    if truthyRat override.sippLumpSum then
      let v := override.sippLumpSum.getD 0
      ({ b with sipp := b.sipp + v }, sippContribution + v)
    else (b, sippContribution)
  let b :=
    if truthyRat override.premiumBondLumpSum then
      { b with premiumBonds := b.premiumBonds + (override.premiumBondLumpSum.getD 0) }
    else b
  let b :=
    if truthyRat override.cashLumpSum then
      { b with cash := b.cash + (override.cashLumpSum.getD 0) }
    else b
  (b, isaContribution, sippContribution)

/-- Resolution of the effective drawdown rate (`src/unnamed/part_003`
lines 150-156): `(config.drawdown.rate ?? config.drawdown.phase1Rate ?? 4)/100`,
replaced by `override.drawdownRateOverride / 100` only when that override is
present (non-null) and not equal to 0. -/
def resolveDrawdownRate (dd : DrawdownConfig) (drawdownRateOverride : Option Rat) : Rat :=
  let base := (dd.rate.getD (dd.phase1Rate.getD 4)) / 100
  match drawdownRateOverride with
  | some r => if r ≠ 0 then r / 100 else base
  | none => base

/-- Premium Bonds drawdown constraint (`src/unnamed/part_003` lines 167-171). -/
def premiumBondsDrawdownAllowed (config : Config) (age : Int) : Bool :=
  config.premiumBonds.enabled &&
    decide ((config.premiumBonds.drawdownStartAge.getD config.retirementAge) ≤ age)

/-- The main withdrawal target (`src/unnamed/part_003` lines 176-187):
exactly one strategy is active — a positive drawdown rate wins, the spending
gap applies only otherwise. -/
def mainGap (drawdownRate preGrowthPortfolio spendingGap : Rat) : Rat :=
  let rateDrawdown := preGrowthPortfolio * drawdownRate
  if drawdownRate > 0 then rateDrawdown else spendingGap

/-- One account-specific drawdown-rate draw (`src/unnamed/part_003`
lines 194-205): `take = min(max(0, balance), balance * rate/100)`. -/
def accountSpecificTake (balance ratePct : Rat) : Rat :=
  min (max 0 balance) (balance * (ratePct / 100))

/-- Step 4a (`src/unnamed/part_003` lines 189-205): apply the SIPP and ISA
account-specific drawdown-rate overrides (the engine has no cash counterpart).
Returns the updated balances and the amounts drawn `(sippWithdrawn, isaWithdrawn)`. -/
def accountSpecificDraws (override : YearOverride)
    (sippAccessAllowed isaDrawdownAllowed : Bool) (b : PotMap) :
    PotMap × Rat × Rat :=
  let (b, sippWithdrawn) :=
    match override.sippDrawdownRateOverride with
    | some r =>
      if sippAccessAllowed then
        let take := accountSpecificTake b.sipp r
        ({ b with sipp := b.sipp - take }, take)
      else (b, 0)
    | none => (b, 0)
  let (b, isaWithdrawn) :=
    match override.isaDrawdownRateOverride with
    | some r =>
      if isaDrawdownAllowed then
        let take := accountSpecificTake b.isa r
        ({ b with isa := b.isa - take }, take)
      else (b, 0)
    | none => (b, 0)
  (b, sippWithdrawn, isaWithdrawn)

/-- The filtered withdrawal order (`src/unnamed/part_003` lines 211-215):
accounts with an active account-specific override are excluded from the main
withdrawal. -/
def effectiveWithdrawalOrder (config : Config) (override : YearOverride)
    (sippAccessAllowed isaDrawdownAllowed : Bool) : List Pot :=
  config.withdrawalOrder.filter fun pot =>
    if pot = Pot.sipp ∧ override.sippDrawdownRateOverride.isSome = true ∧
        sippAccessAllowed = true then false
    else if pot = Pot.isa ∧ override.isaDrawdownRateOverride.isSome = true ∧
        isaDrawdownAllowed = true then false
    else true

/-- Output of the retirement-withdrawal block (Step 4). -/
structure RetireOut where
  balances : PotMap
  isaWithdrawn : Rat
  sippWithdrawn : Rat
  premiumBondsWithdrawn : Rat
  cashWithdrawn : Rat
  shortfall : Rat
  spendingCovered : Rat
  requiredSpending : Rat

/-- Step 4 (`src/unnamed/part_003` lines 149-237): the retirement-withdrawal
block, executed only when `age ≥ retirementAge`. -/
def retirementStep (config : Config) (override : YearOverride) (age : Int)
    (i : Nat) (preGrowthPortfolio : Rat) (b : PotMap) (pensionIncome : Rat) :
    RetireOut :=
  let drawdownRate := resolveDrawdownRate config.drawdown override.drawdownRateOverride
  let requiredSpending := config.retirementSpending * inflationFactor config i
  let sippAccessAllowed := getSippDrawdownAllowed config age
  let isaDrawdownAllowed := getIsaDrawdownAllowed config age
  let pbAllowed := premiumBondsDrawdownAllowed config age
  let spendingGap := max 0 (requiredSpending - pensionIncome)
  let gap := mainGap drawdownRate preGrowthPortfolio spendingGap
  let asd := accountSpecificDraws override sippAccessAllowed isaDrawdownAllowed b
  let b1 := asd.1
  let sippWithdrawn := asd.2.1
  let isaWithdrawn := asd.2.2
  let accountSpecificDrawn := sippWithdrawn + isaWithdrawn
  let adjustedGap := max 0 (gap - accountSpecificDrawn)
  let effOrder := effectiveWithdrawalOrder config override sippAccessAllowed isaDrawdownAllowed
  let post : PotMap × Rat × Rat × Rat × Rat :=
    if adjustedGap > 0 then
      let result := executeWithdrawal b1 adjustedGap effOrder
        ⟨isaDrawdownAllowed, sippAccessAllowed, pbAllowed⟩
      (result.balances,
       isaWithdrawn + result.withdrawn.isa,
       sippWithdrawn + result.withdrawn.sipp,
       result.withdrawn.premiumBonds,
       result.withdrawn.cash)
    else (b1, isaWithdrawn, sippWithdrawn, 0, 0)
  let b := post.1
  let isaW := post.2.1
  let sippW := post.2.2.1
  let pbW := post.2.2.2.1
  let cashW := post.2.2.2.2
  let totalIncomeSoFar := pensionIncome + isaW + sippW + pbW + cashW
  let shortfall := max 0 (requiredSpending - totalIncomeSoFar)
  { balances := b
    isaWithdrawn := isaW
    sippWithdrawn := sippW
    premiumBondsWithdrawn := pbW
    cashWithdrawn := cashW
    shortfall := shortfall
    spendingCovered := requiredSpending - shortfall
    requiredSpending := requiredSpending }

/-- `applyCustomDrawdown` (`src/unnamed/part_003` lines 242-245):
`take = min(max(0, balance), amount)` (the `amount || 0` fallback is moot since
callers are truthiness-gated). -/
def applyCustomDrawdown (balance amount : Rat) : Rat :=
  min (max 0 balance) amount

/-- Per-pot custom drawdown overrides (`src/unnamed/part_003` lines 239-266),
applied in both phases.  Returns the updated balances and the accumulated
`(isaWithdrawn, sippWithdrawn, premiumBondsWithdrawn, cashWithdrawn)`. -/
def customDrawdowns (config : Config) (override : YearOverride) (age : Int)
    (b : PotMap) (isaW sippW pbW cashW : Rat) :
    PotMap × Rat × Rat × Rat × Rat :=
  let (b, isaW) :=
    if truthyRat override.isaCustomDrawdown then
      let take := applyCustomDrawdown b.isa (override.isaCustomDrawdown.getD 0)
      ({ b with isa := b.isa - take }, isaW + take)
    else (b, isaW)
  let (b, sippW) :=
    if truthyRat override.sippCustomDrawdown ∧ getSippDrawdownAllowed config age = true then
      let take := applyCustomDrawdown b.sipp (override.sippCustomDrawdown.getD 0)
      ({ b with sipp := b.sipp - take }, sippW + take)
    else (b, sippW)
  let (b, pbW) :=
    if truthyRat override.premiumBondsCustomDrawdown ∧ config.premiumBonds.enabled = true then
      let take := applyCustomDrawdown b.premiumBonds (override.premiumBondsCustomDrawdown.getD 0)
      ({ b with premiumBonds := b.premiumBonds - take }, pbW + take)
    else (b, pbW)
  let (b, cashW) :=
    if truthyRat override.cashCustomDrawdown ∧ config.cash.enabled = true then
      let take := applyCustomDrawdown b.cash (override.cashCustomDrawdown.getD 0)
      ({ b with cash := b.cash - take }, cashW + take)
    else (b, cashW)
  (b, isaW, sippW, pbW, cashW)

/-- One emitted projection row (`src/unnamed/part_003` lines 277-303).
All currency figures are rounded at output time via `jsRound`. -/
structure Row where
  year : Int
  age : Int
  phase : String
  isaBalance : Int
  sippBalance : Int
  premiumBondsBalance : Int
  cashBalance : Int
  totalNetWorth : Int
  realTotalNetWorth : Int
  inflationFactor : Rat
  isaContribution : Int
  sippContribution : Int
  isaWithdrawn : Int
  sippWithdrawn : Int
  premiumBondsWithdrawn : Int
  cashWithdrawn : Int
  totalWithdrawn : Int
  dbIncome : Int
  stateIncome : Int
  totalPensionIncome : Int
  totalIncome : Int
  requiredSpending : Int
  spendingCovered : Int
  shortfall : Int
  note : String

/-- The body of the yearly loop (`src/unnamed/part_003` lines 49-304):
one simulated year, producing the emitted row and the closing balances. -/
def stepYear (currentYear : Int) (config : Config) (i : Nat) (balances : PotMap) :
    Row × PotMap :=
  let age : Int := config.currentAge + i
  let year : Int := currentYear + i
  let isRetired : Bool := decide (config.retirementAge ≤ age)
  let phase : String := if isRetired then "retire" else "accumulate"
  let inflFactor := inflationFactor config i
  let preGrowthPortfolio :=
    (if config.isa.enabled then balances.isa else 0) +
    (if config.sipp.enabled then balances.sipp else 0) +
    (if config.premiumBonds.enabled then balances.premiumBonds else 0) +
    (if config.cash.enabled then balances.cash else 0)
  let grown := applyGrowth config balances
  let override := (config.overrides year).getD YearOverride.empty
  let ac := applyContributions config age isRetired override grown
  let ls := applyLumpSums override ac.1 ac.2.1 ac.2.2
  let isaContribution := ls.2.1
  let sippContribution := ls.2.2
  let pension := getPensionIncome config age
  let ret :=
    if isRetired then
      retirementStep config override age i preGrowthPortfolio ls.1 pension.total
    else
      { balances := ls.1, isaWithdrawn := 0, sippWithdrawn := 0,
        premiumBondsWithdrawn := 0, cashWithdrawn := 0, shortfall := 0,
        spendingCovered := 0, requiredSpending := 0 }
  let cd := customDrawdowns config override age ret.balances
      ret.isaWithdrawn ret.sippWithdrawn ret.premiumBondsWithdrawn ret.cashWithdrawn
  let balances := cd.1
  let isaW := cd.2.1
  let sippW := cd.2.2.1
  let pbW := cd.2.2.2.1
  let cashW := cd.2.2.2.2
  let totalWithdrawn := isaW + sippW + pbW + cashW
  let totalIncome := pension.total + totalWithdrawn
  let totalNetWorth :=
    max 0 (balances.isa + balances.sipp + balances.premiumBonds + balances.cash)
  ({ year := year
     age := age
     phase := phase
     isaBalance := jsRound balances.isa
     sippBalance := jsRound balances.sipp
     premiumBondsBalance := jsRound balances.premiumBonds
     cashBalance := jsRound balances.cash
     totalNetWorth := jsRound totalNetWorth
     realTotalNetWorth := jsRound (totalNetWorth / inflFactor)
     inflationFactor := (jsRound (inflFactor * 10000) : Rat) / 10000
     isaContribution := jsRound isaContribution
     sippContribution := jsRound sippContribution
     isaWithdrawn := jsRound isaW
     sippWithdrawn := jsRound sippW
     premiumBondsWithdrawn := jsRound pbW
     cashWithdrawn := jsRound cashW
     totalWithdrawn := jsRound totalWithdrawn
     dbIncome := jsRound pension.dbIncome
     stateIncome := jsRound pension.stateIncome
     totalPensionIncome := jsRound pension.total
     totalIncome := jsRound totalIncome
     requiredSpending := jsRound ret.requiredSpending
     spendingCovered := jsRound ret.spendingCovered
     shortfall := jsRound ret.shortfall
     note := override.note.getD "" },
   balances)

/-- The `for (let i = 0; i <= numYears; i++)` loop, as fuelled recursion:
`fuel` counts the remaining iterations, `i` the current index. -/
def runProjectionGo (currentYear : Int) (config : Config) :
    Nat → Nat → PotMap → List Row
  | 0, _, _ => []
  | fuel + 1, i, balances =>
    let r := stepYear currentYear config i balances
    r.1 :: runProjectionGo currentYear config fuel (i + 1) r.2

/-- Initial pot balances (`src/unnamed/part_003` lines 40-45). -/
def initialBalances (config : Config) : PotMap :=
  { isa := if config.isa.enabled then config.isa.balance else 0
    sipp := if config.sipp.enabled then config.sipp.balance else 0
    premiumBonds := if config.premiumBonds.enabled then config.premiumBonds.balance else 0
    cash := if config.cash.enabled then config.cash.balance else 0 }

/-- `runProjection` from `src/unnamed/part_003` lines 35-307.  The loop runs for
`i = 0 … numYears` with `numYears = endAge − currentAge`, i.e. for
`max 0 (endAge − currentAge + 1)` iterations. -/
def runProjection (currentYear : Int) (config : Config) : List Row :=
  runProjectionGo currentYear config
    (config.endAge - config.currentAge + 1).toNat 0 (initialBalances config)

/-! ### Predicates and concrete configurations used by the verification -/

/-- All four entries of a pot map are non-negative. -/
def PotMap.Nonneg (b : PotMap) : Prop := ∀ p : Pot, 0 ≤ b.get p

/-- Sum of the four entries of a pot map. -/
def PotMap.total (m : PotMap) : Rat := m.isa + m.sipp + m.premiumBonds + m.cash

/-- The monetary fields of a per-year override are non-negative where present. -/
def NonnegOverride (ov : YearOverride) : Prop :=
  (∀ v ∈ ov.isaContributionOverride, 0 ≤ v) ∧
  (∀ v ∈ ov.sippContributionOverride, 0 ≤ v) ∧
  (∀ v ∈ ov.isaLumpSum, 0 ≤ v) ∧
  (∀ v ∈ ov.sippLumpSum, 0 ≤ v) ∧
  (∀ v ∈ ov.premiumBondLumpSum, 0 ≤ v) ∧
  (∀ v ∈ ov.cashLumpSum, 0 ≤ v)

/-- The additive monetary inputs of a configuration are non-negative: opening
balances, regular contributions, contribution overrides and lump sums.
(Rates, custom drawdowns and drawdown-rate overrides stay unrestricted.) -/
def NonnegInputs (config : Config) : Prop :=
  0 ≤ config.isa.balance ∧ 0 ≤ config.sipp.balance ∧
  0 ≤ config.premiumBonds.balance ∧ 0 ≤ config.cash.balance ∧
  0 ≤ config.isa.annualContribution ∧ 0 ≤ config.sipp.annualContribution ∧
  0 ≤ config.cash.annualContribution ∧
  ∀ y ov, config.overrides y = some ov → NonnegOverride ov

/-- The emitted per-account balances and the net worth of a row are non-negative. -/
def RowNonneg (r : Row) : Prop :=
  0 ≤ r.isaBalance ∧ 0 ≤ r.sippBalance ∧ 0 ≤ r.premiumBondsBalance ∧
  0 ≤ r.cashBalance ∧ 0 ≤ r.totalNetWorth

/-- A minimal concrete configuration: a single already-retired year (age 60),
ISA only, zero growth, zero drawdown rate, zero spending. -/
def baseConfig : Config :=
  { currentAge := 60
    retirementAge := 60
    endAge := 60
    inflationRate := some 0
    retirementSpending := 0
    statePensionAge := 68
    isa := { enabled := true, balance := 100000, growthRate := some 0,
             annualContribution := 0, stopContributionAge := none,
             drawdownStartAge := none }
    sipp := { enabled := false, balance := 0, growthRate := some 0,
              annualContribution := 0, stopContributionAge := none,
              drawdownStartAge := none, accessAge := none }
    premiumBonds := { enabled := false, balance := 0, prizeRate := some 0,
                      drawdownStartAge := none }
    cash := { enabled := false, balance := 0, growthRate := some 0,
              annualContribution := 0, stopContributionAge := none }
    dbPension := { enabled := false, annualIncome := 0, startAge := 0 }
    statePension := { enabled := false, annualIncome := 0 }
    drawdown := { rate := some 0, phase1Rate := none }
    withdrawalOrder := [Pot.isa, Pot.sipp, Pot.premiumBonds, Pot.cash]
    overrides := fun _ => none }

/-- The configuration of the repository test `cashDrawdownRateOverride draws
specifically from Cash at the configured rate`
(`src/tests/projectionEngine.test.js` lines 669-691): retired at 60, only cash
enabled with balance 100000, zero rates and spending, and a per-year
`cashDrawdownRateOverride` of 5 for the base year. -/
def cashOverrideConfig : Config :=
  { baseConfig with
    endAge := 61
    isa := { baseConfig.isa with enabled := false }
    cash := { enabled := true, balance := 100000, growthRate := some 0,
              annualContribution := 0, stopContributionAge := none }
    overrides := fun y =>
      if y = 2025 then some { cashDrawdownRateOverride := some 5 } else none }

/-- A configuration with a negative ISA lump sum in the base year
(all other inputs zero, single year, not yet retired at 60? — retired,
but with zero gap nothing is withdrawn). -/
def negLumpSumConfig : Config :=
  { baseConfig with
    isa := { baseConfig.isa with balance := 0 }
    overrides := fun y => if y = 2025 then some { isaLumpSum := some (-100) } else none }

/-- A configuration with Premium Bonds exactly at the cap and a premium-bond
lump-sum override of 10000 in the base year (accumulation phase, so no
withdrawals interfere). -/
def pbLumpSumConfig : Config :=
  { baseConfig with
    retirementAge := 70
    isa := { baseConfig.isa with enabled := false }
    premiumBonds := { enabled := true, balance := 50000, prizeRate := some 0,
                      drawdownStartAge := none }
    overrides := fun y =>
      if y = 2025 then some { premiumBondLumpSum := some 10000 } else none }

/-- `baseConfig` with an inconsistent age range (`endAge < currentAge`). -/
def shortConfig : Config := { baseConfig with endAge := 59 }

/-- A configuration whose Premium Bonds balance exceeds the cap after growth
(60000 at 0% prize rate), with cash enabled at 0% growth. -/
def pbGrowthOverflowConfig : Config :=
  { baseConfig with
    retirementAge := 70
    isa := { baseConfig.isa with enabled := false }
    premiumBonds := { enabled := true, balance := 60000, prizeRate := some 0,
                      drawdownStartAge := none }
    cash := { enabled := true, balance := 5, growthRate := some 0,
              annualContribution := 0, stopContributionAge := none } }

/-! ### Basic lemmas -/

theorem PotMap.get_set (b : PotMap) (p q : Pot) (v : Rat) :
    (b.set p v).get q = if q = p then v else b.get q := by
  cases p <;> cases q <;> simp [PotMap.set, PotMap.get]

theorem PotMap.get_zero (p : Pot) : PotMap.zero.get p = 0 := by
  cases p <;> rfl

theorem PotMap.nonneg_iff (b : PotMap) :
    b.Nonneg ↔ 0 ≤ b.isa ∧ 0 ≤ b.sipp ∧ 0 ≤ b.premiumBonds ∧ 0 ≤ b.cash := by
  constructor
  · intro h; exact ⟨h .isa, h .sipp, h .premiumBonds, h .cash⟩
  · rintro ⟨h1, h2, h3, h4⟩ p; cases p <;> assumption

theorem projectYear_nonneg (o g d l e : Rat) : 0 ≤ projectYear o g d l e := by
  simp only [projectYear]; exact le_max_left _ _

theorem sub_capped_take_nonneg (b a : Rat) (hb : 0 ≤ b) :
    0 ≤ b - min (max 0 b) a := by
  have h1 : min (max 0 b) a ≤ b := by
    calc min (max 0 b) a ≤ max 0 b := min_le_left _ _
    _ = b := max_eq_right hb
  linarith

theorem jsRound_nonneg (x : Rat) (hx : 0 ≤ x) : 0 ≤ jsRound x := by
  simp only [jsRound]
  exact Int.floor_nonneg.mpr (by linarith)

theorem getD_zero_nonneg (o : Option Rat) (h : ∀ v ∈ o, 0 ≤ v) : 0 ≤ o.getD 0 := by
  cases o with
  | none => simp
  | some v => exact h v rfl

/-! ### Growth-step lemmas -/

theorem growIsa_sipp (c : Config) (b : PotMap) : (growIsa c b).sipp = b.sipp := by
  unfold growIsa; split <;> rfl

theorem growIsa_premiumBonds (c : Config) (b : PotMap) :
    (growIsa c b).premiumBonds = b.premiumBonds := by
  unfold growIsa; split <;> rfl

theorem growIsa_cash (c : Config) (b : PotMap) : (growIsa c b).cash = b.cash := by
  unfold growIsa; split <;> rfl

theorem growSipp_isa (c : Config) (b : PotMap) : (growSipp c b).isa = b.isa := by
  unfold growSipp; split <;> rfl

theorem growSipp_premiumBonds (c : Config) (b : PotMap) :
    (growSipp c b).premiumBonds = b.premiumBonds := by
  unfold growSipp; split <;> rfl

theorem growSipp_cash (c : Config) (b : PotMap) : (growSipp c b).cash = b.cash := by
  unfold growSipp; split <;> rfl

theorem growCash_isa (c : Config) (b : PotMap) : (growCash c b).isa = b.isa := by
  unfold growCash; split <;> rfl

theorem growCash_sipp (c : Config) (b : PotMap) : (growCash c b).sipp = b.sipp := by
  unfold growCash; split <;> rfl

theorem growCash_premiumBonds (c : Config) (b : PotMap) :
    (growCash c b).premiumBonds = b.premiumBonds := by
  unfold growCash; split <;> rfl

theorem growIsa_nonneg (c : Config) (b : PotMap) (h : b.Nonneg) :
    (growIsa c b).Nonneg := by
  rw [PotMap.nonneg_iff] at h ⊢
  unfold growIsa; split
  · exact ⟨projectYear_nonneg _ _ _ _ _, h.2.1, h.2.2.1, h.2.2.2⟩
  · exact h

theorem growSipp_nonneg (c : Config) (b : PotMap) (h : b.Nonneg) :
    (growSipp c b).Nonneg := by
  rw [PotMap.nonneg_iff] at h ⊢
  unfold growSipp; split
  · exact ⟨h.1, projectYear_nonneg _ _ _ _ _, h.2.2.1, h.2.2.2⟩
  · exact h

theorem growPremiumBonds_nonneg (c : Config) (b : PotMap) (h : b.Nonneg) :
    (growPremiumBonds c b).Nonneg := by
  rw [PotMap.nonneg_iff] at h ⊢
  obtain ⟨h1, h2, h3, h4⟩ := h
  simp only [growPremiumBonds]
  split_ifs with hen hcap hcash
  · exact ⟨h1, h2, by norm_num [PB_CAP], by linarith⟩
  · exact ⟨h1, h2, by norm_num [PB_CAP], h4⟩
  · exact ⟨h1, h2, projectYear_nonneg _ _ _ _ _, h4⟩
  · exact ⟨h1, h2, h3, h4⟩

theorem growCash_nonneg (c : Config) (b : PotMap) (h : b.Nonneg) :
    (growCash c b).Nonneg := by
  rw [PotMap.nonneg_iff] at h ⊢
  unfold growCash; split
  · exact ⟨h.1, h.2.1, h.2.2.1, projectYear_nonneg _ _ _ _ _⟩
  · exact h

theorem applyGrowth_nonneg (c : Config) (b : PotMap) (h : b.Nonneg) :
    (applyGrowth c b).Nonneg :=
  growCash_nonneg _ _ (growPremiumBonds_nonneg _ _ (growSipp_nonneg _ _ (growIsa_nonneg _ _ h)))

/-! ### Withdrawal-allocator lemmas -/

theorem executeWithdrawalGo_balances_nonneg (c : Constraints) (order : List Pot) :
    ∀ (b w : PotMap) (r : Rat), b.Nonneg →
      (executeWithdrawalGo c order b w r).1.Nonneg := by
  induction order with
  | nil => intro b w r hb; exact hb
  | cons pot rest ih =>
    intro b w r hb
    unfold executeWithdrawalGo
    split_ifs with h1 h2 h3
    · exact hb
    · exact ih _ _ _ hb
    · exact ih _ _ _ hb
    · apply ih
      intro q
      rw [PotMap.get_set]
      split_ifs with hq
      · subst hq; exact sub_capped_take_nonneg _ _ (hb q)
      · exact hb q

theorem executeWithdrawalGo_not_mem (c : Constraints) (p : Pot) (order : List Pot)
    (hp : p ∉ order) :
    ∀ (b w : PotMap) (r : Rat),
      (executeWithdrawalGo c order b w r).1.get p = b.get p ∧
      (executeWithdrawalGo c order b w r).2.1.get p = w.get p := by
  induction order with
  | nil => intro b w r; exact ⟨rfl, rfl⟩
  | cons pot rest ih =>
    intro b w r
    have hne : p ≠ pot := fun h => hp (h ▸ List.mem_cons_self pot rest)
    have hrest : p ∉ rest := fun h => hp (List.mem_cons_of_mem pot h)
    unfold executeWithdrawalGo
    split_ifs with h1 h2 h3
    · exact ⟨rfl, rfl⟩
    · exact ih hrest _ _ _
    · exact ih hrest _ _ _
    · refine ⟨?_, ?_⟩
      · rw [(ih hrest _ _ _).1, PotMap.get_set, if_neg hne]
      · rw [(ih hrest _ _ _).2, PotMap.get_set, if_neg hne]

theorem executeWithdrawalGo_remaining_nonneg (c : Constraints) (order : List Pot) :
    ∀ (b w : PotMap) (r : Rat), 0 ≤ r →
      0 ≤ (executeWithdrawalGo c order b w r).2.2 := by
  induction order with
  | nil => intro b w r hr; exact hr
  | cons pot rest ih =>
    intro b w r hr
    unfold executeWithdrawalGo
    split_ifs with h1 h2 h3
    · exact hr
    · exact ih _ _ _ hr
    · exact ih _ _ _ hr
    · exact ih _ _ _ (by
        have : min (max 0 (b.get pot)) r ≤ r := min_le_right _ _
        linarith)

theorem PotMap.total_set_add (m : PotMap) (p : Pot) (t : Rat) :
    (m.set p (m.get p + t)).total = m.total + t := by
  cases p <;> simp [PotMap.set, PotMap.get, PotMap.total] <;> ring

theorem executeWithdrawalGo_total (c : Constraints) (order : List Pot) :
    ∀ (b w : PotMap) (r : Rat),
      (executeWithdrawalGo c order b w r).2.1.total +
        (executeWithdrawalGo c order b w r).2.2 = w.total + r := by
  induction order with
  | nil => intro b w r; rfl
  | cons pot rest ih =>
    intro b w r
    unfold executeWithdrawalGo
    split_ifs with h1 h2 h3
    · rfl
    · exact ih _ _ _
    · exact ih _ _ _
    · rw [ih]
      rw [PotMap.total_set_add]
      ring

theorem executeWithdrawal_balances_nonneg (b : PotMap) (amount : Rat)
    (order : List Pot) (c : Constraints) (hb : b.Nonneg) :
    (executeWithdrawal b amount order c).balances.Nonneg :=
  executeWithdrawalGo_balances_nonneg c order b PotMap.zero amount hb

theorem executeWithdrawal_not_mem (b : PotMap) (amount : Rat) (order : List Pot)
    (c : Constraints) (p : Pot) (hp : p ∉ order) :
    (executeWithdrawal b amount order c).balances.get p = b.get p ∧
    (executeWithdrawal b amount order c).withdrawn.get p = 0 := by
  have h := executeWithdrawalGo_not_mem c p order hp b PotMap.zero amount
  exact ⟨h.1, by rw [executeWithdrawal] at *; exact h.2.trans (PotMap.get_zero p)⟩

theorem executeWithdrawal_total_le (b : PotMap) (amount : Rat) (order : List Pot)
    (c : Constraints) (h : 0 ≤ amount) :
    (executeWithdrawal b amount order c).withdrawn.total ≤ amount := by
  have ht := executeWithdrawalGo_total c order b PotMap.zero amount
  have hr := executeWithdrawalGo_remaining_nonneg c order b PotMap.zero amount h
  have hz : PotMap.zero.total = 0 := by norm_num [PotMap.total, PotMap.zero]
  rw [hz] at ht
  simp only [executeWithdrawal]
  linarith [ht, hr]

/-! ### Non-negativity through the yearly step -/

theorem contribIsa_nonneg (config : Config) (age : Int) (ov : YearOverride)
    (b : PotMap) (hb : b.Nonneg) (hann : 0 ≤ config.isa.annualContribution)
    (hov : ∀ v ∈ ov.isaContributionOverride, (0:Rat) ≤ v) :
    (contribIsa config age ov b).1.Nonneg := by
  rw [PotMap.nonneg_iff] at hb
  obtain ⟨h1, h2, h3, h4⟩ := hb
  rw [PotMap.nonneg_iff]
  simp only [contribIsa]
  rcases hio : ov.isaContributionOverride with _ | v <;>
    simp only [hio] <;> (try split_ifs) <;> refine ⟨?_, ?_, ?_, ?_⟩ <;>
      (try dsimp only) <;>
        first
          | linarith
          | linarith [hov v (by simp [hio])]

theorem contribSipp_nonneg (config : Config) (age : Int) (ov : YearOverride)
    (b : PotMap) (hb : b.Nonneg) (hann : 0 ≤ config.sipp.annualContribution)
    (hov : ∀ v ∈ ov.sippContributionOverride, (0:Rat) ≤ v) :
    (contribSipp config age ov b).1.Nonneg := by
  rw [PotMap.nonneg_iff] at hb
  obtain ⟨h1, h2, h3, h4⟩ := hb
  rw [PotMap.nonneg_iff]
  simp only [contribSipp]
  rcases hio : ov.sippContributionOverride with _ | v <;>
    simp only [hio] <;> (try split_ifs) <;> refine ⟨?_, ?_, ?_, ?_⟩ <;>
      (try dsimp only) <;>
        first
          | linarith
          | linarith [hov v (by simp [hio])]

theorem contribCash_nonneg (config : Config) (age : Int) (b : PotMap)
    (hb : b.Nonneg) (hann : 0 ≤ config.cash.annualContribution) :
    (contribCash config age b).Nonneg := by
  rw [PotMap.nonneg_iff] at hb
  obtain ⟨h1, h2, h3, h4⟩ := hb
  rw [PotMap.nonneg_iff]
  simp only [contribCash]
  split_ifs <;> refine ⟨?_, ?_, ?_, ?_⟩ <;> (try dsimp only) <;> linarith

theorem applyContributions_nonneg (config : Config) (age : Int) (isR : Bool)
    (ov : YearOverride) (b : PotMap) (hb : b.Nonneg)
    (hia : 0 ≤ config.isa.annualContribution)
    (hsa : 0 ≤ config.sipp.annualContribution)
    (hca : 0 ≤ config.cash.annualContribution)
    (hov : NonnegOverride ov) :
    (applyContributions config age isR ov b).1.Nonneg := by
  simp only [applyContributions]
  split_ifs with h
  · exact hb
  · dsimp only
    exact contribCash_nonneg _ _ _
      (contribSipp_nonneg _ _ _ _
        (contribIsa_nonneg _ _ _ _ hb hia hov.1) hsa hov.2.1) hca

theorem applyLumpSums_nonneg (ov : YearOverride) (b : PotMap) (ic sc : Rat)
    (hb : b.Nonneg) (hov : NonnegOverride ov) :
    (applyLumpSums ov b ic sc).1.Nonneg := by
  have hi := getD_zero_nonneg _ hov.2.2.1
  have hs := getD_zero_nonneg _ hov.2.2.2.1
  have hp := getD_zero_nonneg _ hov.2.2.2.2.1
  have hc := getD_zero_nonneg _ hov.2.2.2.2.2
  rw [PotMap.nonneg_iff] at hb
  obtain ⟨h1, h2, h3, h4⟩ := hb
  rw [PotMap.nonneg_iff]
  simp only [applyLumpSums]
  split_ifs <;> refine ⟨?_, ?_, ?_, ?_⟩ <;> (try dsimp only) <;> linarith

theorem accountSpecificDraws_nonneg (ov : YearOverride) (sa ia : Bool)
    (b : PotMap) (hb : b.Nonneg) :
    (accountSpecificDraws ov sa ia b).1.Nonneg := by
  rw [PotMap.nonneg_iff] at hb
  obtain ⟨h1, h2, h3, h4⟩ := hb
  rw [PotMap.nonneg_iff]
  simp only [accountSpecificDraws, accountSpecificTake]
  rcases hs : ov.sippDrawdownRateOverride with _ | rs <;>
    rcases hi : ov.isaDrawdownRateOverride with _ | ri <;>
      simp only [hs, hi] <;> (try split_ifs) <;>
        refine ⟨?_, ?_, ?_, ?_⟩ <;> (try dsimp only) <;>
          first
            | linarith
            | linarith [sub_capped_take_nonneg b.sipp (b.sipp * (rs / 100)) h2]
            | linarith [sub_capped_take_nonneg b.isa (b.isa * (ri / 100)) h1]

theorem retirementStep_balances_nonneg (config : Config) (ov : YearOverride)
    (age : Int) (i : Nat) (pf : Rat) (b : PotMap) (pension : Rat)
    (hb : b.Nonneg) :
    (retirementStep config ov age i pf b pension).balances.Nonneg := by
  simp only [retirementStep]
  split_ifs with h
  · exact executeWithdrawal_balances_nonneg _ _ _ _
      (accountSpecificDraws_nonneg _ _ _ _ hb)
  · exact accountSpecificDraws_nonneg _ _ _ _ hb

theorem customDrawdowns_nonneg (config : Config) (ov : YearOverride) (age : Int)
    (b : PotMap) (w1 w2 w3 w4 : Rat) (hb : b.Nonneg) :
    (customDrawdowns config ov age b w1 w2 w3 w4).1.Nonneg := by
  rw [PotMap.nonneg_iff] at hb
  obtain ⟨h1, h2, h3, h4⟩ := hb
  rw [PotMap.nonneg_iff]
  simp only [customDrawdowns, applyCustomDrawdown]
  split_ifs <;> refine ⟨?_, ?_, ?_, ?_⟩ <;> (try dsimp only) <;>
    first
      | linarith
      | linarith [sub_capped_take_nonneg b.isa (ov.isaCustomDrawdown.getD 0) h1]
      | linarith [sub_capped_take_nonneg b.sipp (ov.sippCustomDrawdown.getD 0) h2]
      | linarith [sub_capped_take_nonneg b.premiumBonds (ov.premiumBondsCustomDrawdown.getD 0) h3]
      | linarith [sub_capped_take_nonneg b.cash (ov.cashCustomDrawdown.getD 0) h4]

theorem nonnegOverride_empty : NonnegOverride YearOverride.empty := by
  refine ⟨?_, ?_, ?_, ?_, ?_, ?_⟩ <;> intro v hv <;>
    simp [YearOverride.empty] at hv

theorem resolvedOverride_nonneg (config : Config) (year : Int)
    (h : ∀ y ov, config.overrides y = some ov → NonnegOverride ov) :
    NonnegOverride ((config.overrides year).getD YearOverride.empty) := by
  cases ho : config.overrides year with
  | none => simpa [ho] using nonnegOverride_empty
  | some o => simpa [ho] using h year o ho

theorem stepYear_balances_nonneg (y : Int) (config : Config) (i : Nat)
    (b : PotMap) (hin : NonnegInputs config) (hb : b.Nonneg) :
    (stepYear y config i b).2.Nonneg := by
  obtain ⟨hb1, hb2, hb3, hb4, hc1, hc2, hc3, hovs⟩ := hin
  simp only [stepYear]
  apply customDrawdowns_nonneg
  split
  · apply retirementStep_balances_nonneg
    apply applyLumpSums_nonneg
    · apply applyContributions_nonneg _ _ _ _ _ (applyGrowth_nonneg _ _ hb)
        hc1 hc2 hc3 (resolvedOverride_nonneg _ _ hovs)
    · exact resolvedOverride_nonneg _ _ hovs
  · apply applyLumpSums_nonneg
    · apply applyContributions_nonneg _ _ _ _ _ (applyGrowth_nonneg _ _ hb)
        hc1 hc2 hc3 (resolvedOverride_nonneg _ _ hovs)
    · exact resolvedOverride_nonneg _ _ hovs

theorem stepYear_isaBalance (y : Int) (config : Config) (i : Nat) (b : PotMap) :
    (stepYear y config i b).1.isaBalance = jsRound (stepYear y config i b).2.isa := by
  simp only [stepYear]

theorem stepYear_sippBalance (y : Int) (config : Config) (i : Nat) (b : PotMap) :
    (stepYear y config i b).1.sippBalance = jsRound (stepYear y config i b).2.sipp := by
  simp only [stepYear]

theorem stepYear_premiumBondsBalance (y : Int) (config : Config) (i : Nat) (b : PotMap) :
    (stepYear y config i b).1.premiumBondsBalance
      = jsRound (stepYear y config i b).2.premiumBonds := by
  simp only [stepYear]

theorem stepYear_cashBalance (y : Int) (config : Config) (i : Nat) (b : PotMap) :
    (stepYear y config i b).1.cashBalance = jsRound (stepYear y config i b).2.cash := by
  simp only [stepYear]

theorem stepYear_totalNetWorth (y : Int) (config : Config) (i : Nat) (b : PotMap) :
    (stepYear y config i b).1.totalNetWorth
      = jsRound (max 0 ((stepYear y config i b).2.isa + (stepYear y config i b).2.sipp
          + (stepYear y config i b).2.premiumBonds + (stepYear y config i b).2.cash)) := by
  simp only [stepYear]

theorem stepYear_row_nonneg (y : Int) (config : Config) (i : Nat)
    (b : PotMap) (hin : NonnegInputs config) (hb : b.Nonneg) :
    RowNonneg (stepYear y config i b).1 := by
  have H := stepYear_balances_nonneg y config i b hin hb
  refine ⟨?_, ?_, ?_, ?_, ?_⟩
  · rw [stepYear_isaBalance]; exact jsRound_nonneg _ (H Pot.isa)
  · rw [stepYear_sippBalance]; exact jsRound_nonneg _ (H Pot.sipp)
  · rw [stepYear_premiumBondsBalance]; exact jsRound_nonneg _ (H Pot.premiumBonds)
  · rw [stepYear_cashBalance]; exact jsRound_nonneg _ (H Pot.cash)
  · rw [stepYear_totalNetWorth]; exact jsRound_nonneg _ (le_max_left _ _)

theorem runProjectionGo_length (y : Int) (config : Config) :
    ∀ (fuel i : Nat) (b : PotMap),
      (runProjectionGo y config fuel i b).length = fuel := by
  intro fuel
  induction fuel with
  | zero => intro i b; rfl
  | succ n ih => intro i b; simp [runProjectionGo, ih]

theorem runProjectionGo_rows_nonneg (y : Int) (config : Config)
    (hin : NonnegInputs config) :
    ∀ (fuel i : Nat) (b : PotMap), b.Nonneg →
      ∀ r ∈ runProjectionGo y config fuel i b, RowNonneg r := by
  intro fuel
  induction fuel with
  | zero => intro i b hb r hr; simp [runProjectionGo] at hr
  | succ n ih =>
    intro i b hb r hr
    rw [runProjectionGo] at hr
    rcases List.mem_cons.1 hr with h | h
    · exact h ▸ stepYear_row_nonneg y config i b hin hb
    · exact ih (i + 1) _ (stepYear_balances_nonneg y config i b hin hb) r h

theorem initialBalances_nonneg (config : Config) (hin : NonnegInputs config) :
    (initialBalances config).Nonneg := by
  obtain ⟨hb1, hb2, hb3, hb4, _, _, _, _⟩ := hin
  rw [PotMap.nonneg_iff]
  simp only [initialBalances]
  refine ⟨?_, ?_, ?_, ?_⟩ <;> split_ifs <;> linarith

/-! ### Support lemmas for the account-specific override claims -/

theorem PotMap.get_isa_eq (m : PotMap) : m.get Pot.isa = m.isa := rfl

theorem PotMap.get_sipp_eq (m : PotMap) : m.get Pot.sipp = m.sipp := rfl

theorem accountSpecificDraws_eq (ov : YearOverride) (sa ia : Bool) (b : PotMap) :
    accountSpecificDraws ov sa ia b =
      (⟨b.isa - (if ov.isaDrawdownRateOverride.isSome = true ∧ ia = true
                 then accountSpecificTake b.isa (ov.isaDrawdownRateOverride.getD 0) else 0),
        b.sipp - (if ov.sippDrawdownRateOverride.isSome = true ∧ sa = true
                  then accountSpecificTake b.sipp (ov.sippDrawdownRateOverride.getD 0) else 0),
        b.premiumBonds, b.cash⟩,
       (if ov.sippDrawdownRateOverride.isSome = true ∧ sa = true
        then accountSpecificTake b.sipp (ov.sippDrawdownRateOverride.getD 0) else 0),
       (if ov.isaDrawdownRateOverride.isSome = true ∧ ia = true
        then accountSpecificTake b.isa (ov.isaDrawdownRateOverride.getD 0) else 0)) := by
  rcases hs : ov.sippDrawdownRateOverride with _ | rs <;>
    rcases hi : ov.isaDrawdownRateOverride with _ | ri <;>
      simp only [accountSpecificDraws, hs, hi, Option.isSome_none, Option.isSome_some,
        Option.getD_some, Option.getD_none] <;>
        split_ifs <;>
          simp_all [Prod.ext_iff, PotMap.mk.injEq, sub_zero]

theorem sipp_not_mem_effectiveOrder (config : Config) (ov : YearOverride)
    (sa ia : Bool) (hs : ov.sippDrawdownRateOverride.isSome = true)
    (hsa : sa = true) :
    Pot.sipp ∉ effectiveWithdrawalOrder config ov sa ia := by
  intro hmem
  rw [effectiveWithdrawalOrder, List.mem_filter] at hmem
  have hp := hmem.2
  simp [hs, hsa] at hp

theorem isa_not_mem_effectiveOrder (config : Config) (ov : YearOverride)
    (sa ia : Bool) (hi : ov.isaDrawdownRateOverride.isSome = true)
    (hia : ia = true) :
    Pot.isa ∉ effectiveWithdrawalOrder config ov sa ia := by
  intro hmem
  rw [effectiveWithdrawalOrder, List.mem_filter] at hmem
  have hp := hmem.2
  simp [hi, hia] at hp

theorem growPremiumBonds_overflow (c : Config) (b : PotMap)
    (hen : c.premiumBonds.enabled = true)
    (hover : PB_CAP < projectYear b.premiumBonds ((c.premiumBonds.prizeRate.getD 0) / 100)) :
    (growPremiumBonds c b).premiumBonds = PB_CAP ∧
    (c.cash.enabled = true →
      (growPremiumBonds c b).cash
        = b.cash + (projectYear b.premiumBonds ((c.premiumBonds.prizeRate.getD 0) / 100) - PB_CAP)) ∧
    (c.cash.enabled = false → (growPremiumBonds c b).cash = b.cash) := by
  simp only [growPremiumBonds]
  rw [if_pos hen, if_pos hover]
  refine ⟨?_, ?_, ?_⟩
  · split_ifs <;> rfl
  · intro hc; rw [if_pos hc]
  · intro hc; rw [if_neg (by simp [hc])]

theorem executeWithdrawal_withdrawn_sipp_zero (b : PotMap) (amount : Rat)
    (order : List Pot) (c : Constraints) (hp : Pot.sipp ∉ order) :
    (executeWithdrawal b amount order c).withdrawn.sipp = 0 :=
  (executeWithdrawal_not_mem b amount order c Pot.sipp hp).2

theorem executeWithdrawal_balances_sipp_eq (b : PotMap) (amount : Rat)
    (order : List Pot) (c : Constraints) (hp : Pot.sipp ∉ order) :
    (executeWithdrawal b amount order c).balances.sipp = b.sipp :=
  (executeWithdrawal_not_mem b amount order c Pot.sipp hp).1

theorem executeWithdrawal_withdrawn_isa_zero (b : PotMap) (amount : Rat)
    (order : List Pot) (c : Constraints) (hp : Pot.isa ∉ order) :
    (executeWithdrawal b amount order c).withdrawn.isa = 0 :=
  (executeWithdrawal_not_mem b amount order c Pot.isa hp).2

theorem executeWithdrawal_balances_isa_eq (b : PotMap) (amount : Rat)
    (order : List Pot) (c : Constraints) (hp : Pot.isa ∉ order) :
    (executeWithdrawal b amount order c).balances.isa = b.isa :=
  (executeWithdrawal_not_mem b amount order c Pot.isa hp).1

theorem retirementStep_sipp_spec (config : Config) (ov : YearOverride)
    (age : Int) (i : Nat) (pf pension : Rat) (b : PotMap)
    (hs : ov.sippDrawdownRateOverride.isSome = true)
    (hsa : getSippDrawdownAllowed config age = true) :
    (retirementStep config ov age i pf b pension).sippWithdrawn
      = accountSpecificTake b.sipp (ov.sippDrawdownRateOverride.getD 0) ∧
    (retirementStep config ov age i pf b pension).balances.sipp
      = b.sipp - accountSpecificTake b.sipp (ov.sippDrawdownRateOverride.getD 0) := by
  have hnm := sipp_not_mem_effectiveOrder config ov
    (getSippDrawdownAllowed config age) (getIsaDrawdownAllowed config age) hs hsa
  rw [hsa] at hnm
  simp only [retirementStep]
  rw [accountSpecificDraws_eq]
  simp only [hs, hsa, and_self, if_true, true_and, eq_self_iff_true]
  split_ifs <;>
    first
      | (rw [executeWithdrawal_withdrawn_sipp_zero _ _ _ _ hnm,
            executeWithdrawal_balances_sipp_eq _ _ _ _ hnm]
         exact ⟨add_zero _, rfl⟩)
      | exact ⟨rfl, rfl⟩

theorem retirementStep_isa_spec (config : Config) (ov : YearOverride)
    (age : Int) (i : Nat) (pf pension : Rat) (b : PotMap)
    (hi : ov.isaDrawdownRateOverride.isSome = true)
    (hia : getIsaDrawdownAllowed config age = true) :
    (retirementStep config ov age i pf b pension).isaWithdrawn
      = accountSpecificTake b.isa (ov.isaDrawdownRateOverride.getD 0) ∧
    (retirementStep config ov age i pf b pension).balances.isa
      = b.isa - accountSpecificTake b.isa (ov.isaDrawdownRateOverride.getD 0) := by
  have hnm := isa_not_mem_effectiveOrder config ov
    (getSippDrawdownAllowed config age) (getIsaDrawdownAllowed config age) hi hia
  rw [hia] at hnm
  simp only [retirementStep]
  rw [accountSpecificDraws_eq]
  simp only [hi, hia, and_self, if_true, true_and, eq_self_iff_true]
  split_ifs <;>
    first
      | (rw [executeWithdrawal_withdrawn_isa_zero _ _ _ _ hnm,
            executeWithdrawal_balances_isa_eq _ _ _ _ hnm]
         exact ⟨add_zero _, rfl⟩)
      | exact ⟨rfl, rfl⟩

theorem retirementStep_total_le (config : Config) (ov : YearOverride)
    (age : Int) (i : Nat) (pf pension : Rat) (b : PotMap) :
    (retirementStep config ov age i pf b pension).isaWithdrawn
      + (retirementStep config ov age i pf b pension).sippWithdrawn
      + (retirementStep config ov age i pf b pension).premiumBondsWithdrawn
      + (retirementStep config ov age i pf b pension).cashWithdrawn
    ≤ (accountSpecificDraws ov (getSippDrawdownAllowed config age)
          (getIsaDrawdownAllowed config age) b).2.1
      + (accountSpecificDraws ov (getSippDrawdownAllowed config age)
          (getIsaDrawdownAllowed config age) b).2.2
      + max 0 (mainGap (resolveDrawdownRate config.drawdown ov.drawdownRateOverride) pf
            (max 0 (config.retirementSpending * inflationFactor config i - pension))
          - ((accountSpecificDraws ov (getSippDrawdownAllowed config age)
              (getIsaDrawdownAllowed config age) b).2.1
            + (accountSpecificDraws ov (getSippDrawdownAllowed config age)
              (getIsaDrawdownAllowed config age) b).2.2)) := by
  simp only [retirementStep]
  split_ifs with hgap <;> dsimp only
  · have hle := executeWithdrawal_total_le
      (accountSpecificDraws ov (getSippDrawdownAllowed config age)
        (getIsaDrawdownAllowed config age) b).1
      (max 0 (mainGap (resolveDrawdownRate config.drawdown ov.drawdownRateOverride) pf
          (max 0 (config.retirementSpending * inflationFactor config i - pension))
        - ((accountSpecificDraws ov (getSippDrawdownAllowed config age)
            (getIsaDrawdownAllowed config age) b).2.1
          + (accountSpecificDraws ov (getSippDrawdownAllowed config age)
            (getIsaDrawdownAllowed config age) b).2.2)))
      (effectiveWithdrawalOrder config ov (getSippDrawdownAllowed config age)
        (getIsaDrawdownAllowed config age))
      ⟨getIsaDrawdownAllowed config age, getSippDrawdownAllowed config age,
        premiumBondsDrawdownAllowed config age⟩
      (le_of_lt hgap)
    simp only [PotMap.total] at hle
    linarith
  · have hmax := le_max_left (0 : Rat)
      (mainGap (resolveDrawdownRate config.drawdown ov.drawdownRateOverride) pf
          (max 0 (config.retirementSpending * inflationFactor config i - pension))
        - ((accountSpecificDraws ov (getSippDrawdownAllowed config age)
            (getIsaDrawdownAllowed config age) b).2.1
          + (accountSpecificDraws ov (getSippDrawdownAllowed config age)
            (getIsaDrawdownAllowed config age) b).2.2))
    linarith

/-! ### Claim theorems -/

/-- C1: the claim states that every account whose eligibility flag is false is
skipped entirely by `executeWithdrawal` — in particular an ISA with
`isaDrawdownAllowed = false` is never drawn.  The source checks only the SIPP
and Premium Bonds flags, so the ineligible ISA IS drawn: at the input of the
repository test `skips ISA when not yet at drawdown age` (which asserts
`withdrawn.isa = 0`), the allocator withdraws 10000 from the ISA and lowers its
balance to 40000. -/
theorem claim1_allocator_draws_ineligible_isa :
    (executeWithdrawal ⟨50000, 50000, 0, 0⟩ 10000 [Pot.isa, Pot.sipp]
        ⟨false, true, true⟩).withdrawn.isa = 10000 ∧
    (executeWithdrawal ⟨50000, 50000, 0, 0⟩ 10000 [Pot.isa, Pot.sipp]
        ⟨false, true, true⟩).balances.isa = 40000 := by
  constructor <;>
    norm_num [executeWithdrawal, executeWithdrawalGo, PotMap.get, PotMap.set,
      PotMap.zero]

/-- C2: in a retirement year the main withdrawal target computed by the engine
is `preGrowthPortfolio × effectiveRate` whenever the effective drawdown rate is
strictly positive, and is the spending gap `max 0 (requiredSpending −
pensionIncome)` when the effective rate is zero; the two are never combined or
maximised. -/
theorem claim2_rate_dominates_spending (dd : DrawdownConfig) (ov : Option Rat)
    (pf req pension : Rat) :
    (0 < resolveDrawdownRate dd ov →
      mainGap (resolveDrawdownRate dd ov) pf (max 0 (req - pension))
        = pf * resolveDrawdownRate dd ov) ∧
    (resolveDrawdownRate dd ov = 0 →
      mainGap (resolveDrawdownRate dd ov) pf (max 0 (req - pension))
        = max 0 (req - pension)) := by
  constructor
  · intro h; simp only [mainGap]; rw [if_pos h]
  · intro h; simp only [mainGap]; rw [if_neg (by rw [h]; exact lt_irrefl 0)]

/-- Witness for C2 at concrete inputs: a configured rate of 4 gives the
rate-based target, a configured rate of 0 gives the spending gap. -/
theorem claim2_witness :
    mainGap (resolveDrawdownRate ⟨some 4, none⟩ none) 100 (max 0 (50 - 10))
      = 100 * resolveDrawdownRate ⟨some 4, none⟩ none ∧
    mainGap (resolveDrawdownRate ⟨some 0, none⟩ none) 100 (max 0 (50 - 10))
      = max 0 (50 - 10) :=
  ⟨(claim2_rate_dominates_spending ⟨some 4, none⟩ none 100 50 10).1
      (by norm_num [resolveDrawdownRate]),
   (claim2_rate_dominates_spending ⟨some 0, none⟩ none 100 50 10).2
      (by norm_num [resolveDrawdownRate])⟩

/-- C3: the claim covers every account with an active account-specific
drawdown-rate override — including cash (the spec lists ISA, SIPP and cash) —
and requires that account to be drawn `min(balance, balance × rate/100)` by its
own rate before the main withdrawal and removed from the withdrawal order.  The
engine implements the override only for SIPP and ISA: in a retirement year at
age 60 with cash enabled and eligible (no `drawdownStartAge`, at retirement
age), a cash balance of 100000 and an active `cashDrawdownRateOverride` of 5,
the claimed own-rate draw is `min(100000, 100000 × 5/100) = 5000`, yet the
retirement step withdraws nothing from cash, leaves its balance unchanged, and
keeps cash in the order passed to the allocator. -/
theorem claim3_cash_override_not_applied :
    cashOverrideConfig.cash.enabled = true ∧
    cashOverrideConfig.retirementAge ≤ 60 ∧
    min (100000 : Rat) (100000 * (5 / 100)) = 5000 ∧
    (retirementStep cashOverrideConfig { cashDrawdownRateOverride := some 5 }
        60 0 100000 ⟨0, 0, 0, 100000⟩ 0).cashWithdrawn = 0 ∧
    (retirementStep cashOverrideConfig { cashDrawdownRateOverride := some 5 }
        60 0 100000 ⟨0, 0, 0, 100000⟩ 0).balances.cash = 100000 ∧
    Pot.cash ∈ effectiveWithdrawalOrder cashOverrideConfig
      { cashDrawdownRateOverride := some 5 }
      (getSippDrawdownAllowed cashOverrideConfig 60)
      (getIsaDrawdownAllowed cashOverrideConfig 60) := by
  refine ⟨by decide, by decide, by norm_num, ?_, ?_, by decide⟩ <;>
    norm_num [retirementStep, resolveDrawdownRate, inflationFactor, mainGap,
      accountSpecificDraws, accountSpecificTake, effectiveWithdrawalOrder,
      executeWithdrawal, executeWithdrawalGo, getIsaDrawdownAllowed,
      getSippDrawdownAllowed, orElseNum, premiumBondsDrawdownAllowed,
      PotMap.get, PotMap.set, PotMap.zero, cashOverrideConfig, baseConfig]

/-- C4: the claim (and the repository test `cashDrawdownRateOverride draws
specifically from Cash at the configured rate`, which expects
`cashWithdrawn = 5000` and `cashBalance = 95000` in the first year) states that
a cash account-specific drawdown-rate override draws
`min(balance, balance × rate)` from cash.  The engine never reads
`cashDrawdownRateOverride`, so nothing is withdrawn: both years report
`cashWithdrawn = 0` and an untouched balance of 100000. -/
theorem claim4_cash_override_ignored :
    (runProjection 2025 cashOverrideConfig).map (fun r => r.cashWithdrawn)
      = [0, 0] ∧
    (runProjection 2025 cashOverrideConfig).map (fun r => r.cashBalance)
      = [100000, 100000] := by
  constructor <;>
    norm_num [runProjection, runProjectionGo, initialBalances, stepYear, applyGrowth,
      growIsa, growSipp, growPremiumBonds, growCash, projectYear, applyContributions,
      contribIsa, contribSipp, contribCash, contributionsOngoing, applyLumpSums,
      truthyRat, getPensionIncome, retirementStep, resolveDrawdownRate, inflationFactor,
      mainGap, accountSpecificDraws, accountSpecificTake, effectiveWithdrawalOrder,
      executeWithdrawal, executeWithdrawalGo, customDrawdowns, applyCustomDrawdown,
      getIsaDrawdownAllowed, getSippDrawdownAllowed, orElseNum,
      premiumBondsDrawdownAllowed, jsRound, PB_CAP, PotMap.get, PotMap.set, PotMap.zero,
      YearOverride.empty, cashOverrideConfig, baseConfig]

/-- C5 counterexample: with unrestricted inputs the non-negativity claim fails —
a per-year ISA lump sum of −100 on a zero ISA balance yields an emitted
`isaBalance` of −100. -/
theorem claim5_counterexample :
    (runProjection 2025 negLumpSumConfig).map (fun r => r.isaBalance) = [-100] ∧
    (-100 : Int) < 0 := by
  refine ⟨?_, by norm_num⟩
  norm_num [runProjection, runProjectionGo, initialBalances, stepYear, applyGrowth,
    growIsa, growSipp, growPremiumBonds, growCash, projectYear, applyContributions,
    contribIsa, contribSipp, contribCash, contributionsOngoing, applyLumpSums,
    truthyRat, getPensionIncome, retirementStep, resolveDrawdownRate, inflationFactor,
    mainGap, accountSpecificDraws, accountSpecificTake, effectiveWithdrawalOrder,
    executeWithdrawal, executeWithdrawalGo, customDrawdowns, applyCustomDrawdown,
    getIsaDrawdownAllowed, getSippDrawdownAllowed, orElseNum,
    premiumBondsDrawdownAllowed, jsRound, PB_CAP, PotMap.get, PotMap.set, PotMap.zero,
    YearOverride.empty, negLumpSumConfig, baseConfig]

/-- C5 (amended): when the additive monetary inputs (opening balances, regular
contributions, contribution overrides and lump sums) are non-negative, every
row emitted by `runProjection` has non-negative per-account closing balances
and non-negative `totalNetWorth`. -/
theorem claim5_nonneg_balances (y : Int) (config : Config)
    (h : NonnegInputs config) :
    ∀ r ∈ runProjection y config, RowNonneg r := by
  intro r hr
  exact runProjectionGo_rows_nonneg y config h _ 0 _
    (initialBalances_nonneg config h) r hr

/-- Witness for C5 at `baseConfig`. -/
theorem claim5_witness :
    NonnegInputs baseConfig ∧
    List.Forall RowNonneg (runProjection 2025 baseConfig) := by
  have hn : NonnegInputs baseConfig := by
    refine ⟨by norm_num [baseConfig], by norm_num [baseConfig],
      by norm_num [baseConfig], by norm_num [baseConfig],
      by norm_num [baseConfig], by norm_num [baseConfig],
      by norm_num [baseConfig], ?_⟩
    intro y ov hyp
    simp [baseConfig] at hyp
  exact ⟨hn, List.forall_iff_forall_mem.mpr (claim5_nonneg_balances 2025 baseConfig hn)⟩

/-- C6: whenever Premium Bonds are enabled and the post-growth balance exceeds
the cap, the balance is set to exactly 50000; the excess reaches the cash
balance in the same year when cash is enabled (cash growth is then applied on
top of it), and is dropped entirely when cash is disabled. -/
theorem claim6_pb_cap_overflow (config : Config) (b : PotMap)
    (hen : config.premiumBonds.enabled = true)
    (hover : PB_CAP < projectYear b.premiumBonds
        ((config.premiumBonds.prizeRate.getD 0) / 100)) :
    (applyGrowth config b).premiumBonds = 50000 ∧
    (config.cash.enabled = true →
      (applyGrowth config b).cash
        = projectYear
            (b.cash + (projectYear b.premiumBonds
                ((config.premiumBonds.prizeRate.getD 0) / 100) - 50000))
            ((config.cash.growthRate.getD 0) / 100)) ∧
    (config.cash.enabled = false → (applyGrowth config b).cash = b.cash) := by
  have hpb0 : (growSipp config (growIsa config b)).premiumBonds = b.premiumBonds := by
    rw [growSipp_premiumBonds, growIsa_premiumBonds]
  have hcash0 : (growSipp config (growIsa config b)).cash = b.cash := by
    rw [growSipp_cash, growIsa_cash]
  have hover2 : PB_CAP < projectYear (growSipp config (growIsa config b)).premiumBonds
      ((config.premiumBonds.prizeRate.getD 0) / 100) := by rw [hpb0]; exact hover
  have h := growPremiumBonds_overflow config (growSipp config (growIsa config b)) hen hover2
  refine ⟨?_, ?_, ?_⟩
  · rw [applyGrowth, growCash_premiumBonds, h.1]
    norm_num [PB_CAP]
  · intro hc
    rw [applyGrowth, growCash, if_pos hc, h.2.1 hc, hcash0, hpb0]
    norm_num [PB_CAP]
  · intro hc
    rw [applyGrowth, growCash, if_neg (by simp [hc]), h.2.2 hc, hcash0]

/-- Witness for C6: Premium Bonds at 60000 with 0% prize rate overflow 10000
into an enabled cash account. -/
theorem claim6_witness :
    pbGrowthOverflowConfig.premiumBonds.enabled = true ∧
    PB_CAP < projectYear (60000 : Rat)
      ((pbGrowthOverflowConfig.premiumBonds.prizeRate.getD 0) / 100) ∧
    (applyGrowth pbGrowthOverflowConfig ⟨0, 0, 60000, 5⟩).premiumBonds = 50000 ∧
    (pbGrowthOverflowConfig.cash.enabled = true →
      (applyGrowth pbGrowthOverflowConfig ⟨0, 0, 60000, 5⟩).cash
        = projectYear
            (5 + (projectYear (60000 : Rat)
                ((pbGrowthOverflowConfig.premiumBonds.prizeRate.getD 0) / 100) - 50000))
            ((pbGrowthOverflowConfig.cash.growthRate.getD 0) / 100)) := by
  have h := claim6_pb_cap_overflow pbGrowthOverflowConfig ⟨0, 0, 60000, 5⟩
    (by decide)
    (by norm_num [projectYear, PB_CAP, pbGrowthOverflowConfig, baseConfig])
  exact ⟨by decide,
    by norm_num [projectYear, PB_CAP, pbGrowthOverflowConfig, baseConfig],
    h.1, h.2.1⟩

/-- C7 counterexample: the claim says the effective rate defaults to 4% when
the configured rate is unset, but with `rate = null` and the legacy
`phase1Rate = 6` the engine resolves 6%, not 4%. -/
theorem claim7_counterexample :
    resolveDrawdownRate ⟨none, some 6⟩ none = 6 / 100 ∧
    (6 / 100 : Rat) ≠ 4 / 100 := by
  constructor
  · rfl
  · norm_num

/-- C7 (amended): the effective rate is the per-year override (divided by 100)
when present and non-zero; when the override is absent or exactly 0 it is the
configured default `rate`, falling back to the legacy `phase1Rate` and then to
4 when unset — in particular an override of 0 never replaces the default. -/
theorem claim7_rate_resolution (dd : DrawdownConfig) (ov : Option Rat) :
    (∀ r, ov = some r → r ≠ 0 → resolveDrawdownRate dd ov = r / 100) ∧
    ((ov = none ∨ ov = some 0) →
      resolveDrawdownRate dd ov = (dd.rate.getD (dd.phase1Rate.getD 4)) / 100) := by
  constructor
  · intro r hr hne
    simp [resolveDrawdownRate, hr, hne]
  · rintro (h | h) <;> simp [resolveDrawdownRate, h]

/-- Witness for C7: a non-zero override of 5 wins; a zero override falls back
to the configured chain (here the legacy `phase1Rate`). -/
theorem claim7_witness :
    resolveDrawdownRate ⟨some 2, some 6⟩ (some 5) = 5 / 100 ∧
    resolveDrawdownRate ⟨none, some 6⟩ (some 0)
      = ((none : Option Rat).getD ((some (6 : Rat)).getD 4)) / 100 :=
  ⟨(claim7_rate_resolution ⟨some 2, some 6⟩ (some 5)).1 5 rfl (by norm_num),
   (claim7_rate_resolution ⟨none, some 6⟩ (some 0)).2 (Or.inr rfl)⟩

/-- C8: `projectYear` computes `max 0 (opening × (1 + g − d) + lumpIn −
extraOut)`; with no lump sum or extra draw it is `max 0 (opening × (1 + g −
d))`, and it is never negative. -/
theorem claim8_projectYear_formula (opening g d lumpIn extraOut : Rat)
    (h0 : 0 ≤ opening) (hd : 0 ≤ d) :
    projectYear opening g d lumpIn extraOut
      = max 0 (opening * (1 + g - d) + lumpIn - extraOut) ∧
    projectYear opening g d = max 0 (opening * (1 + g - d)) ∧
    0 ≤ projectYear opening g d lumpIn extraOut := by
  refine ⟨?_, ?_, projectYear_nonneg _ _ _ _ _⟩ <;>
    (simp only [projectYear]; congr 1; ring)

/-- Witness for C8 at concrete inputs. -/
theorem claim8_witness :
    (0 : Rat) ≤ 100 ∧ (0 : Rat) ≤ 2 / 100 ∧
    projectYear 100 (5 / 100) (2 / 100) 10 7
      = max 0 (100 * (1 + 5 / 100 - 2 / 100) + 10 - 7) :=
  ⟨by norm_num, by norm_num,
   (claim8_projectYear_formula 100 (5 / 100) (2 / 100) 10 7
      (by norm_num) (by norm_num)).1⟩

/-- C9: `runProjection` emits exactly `endAge − currentAge + 1` rows when
`endAge ≥ currentAge`, and the empty sequence when `endAge < currentAge`. -/
theorem claim9_row_count (y : Int) (config : Config) :
    (config.currentAge ≤ config.endAge →
      ((runProjection y config).length : Int)
        = config.endAge - config.currentAge + 1) ∧
    (config.endAge < config.currentAge → runProjection y config = []) := by
  constructor
  · intro h
    rw [runProjection, runProjectionGo_length]
    exact Int.toNat_of_nonneg (by linarith)
  · intro h
    rw [runProjection]
    have hz : (config.endAge - config.currentAge + 1).toNat = 0 :=
      Int.toNat_of_nonpos (by linarith)
    rw [hz]
    rfl

/-- Witness for C9: one row for a one-year range, no rows when
`endAge < currentAge`. -/
theorem claim9_witness :
    baseConfig.currentAge ≤ baseConfig.endAge ∧
    ((runProjection 2025 baseConfig).length : Int)
      = baseConfig.endAge - baseConfig.currentAge + 1 ∧
    shortConfig.endAge < shortConfig.currentAge ∧
    runProjection 2025 shortConfig = [] :=
  ⟨by decide, (claim9_row_count 2025 baseConfig).1 (by decide),
   by decide, (claim9_row_count 2025 shortConfig).2 (by decide)⟩

/-- C10: the 50000 cap is enforced only at the growth step — a premium-bond
lump sum is added afterwards with no re-capping, so a configuration at the cap
with a 10000 lump sum emits `premiumBondsBalance = 60000 > 50000`. -/
theorem claim10_lump_sum_exceeds_cap :
    (runProjection 2025 pbLumpSumConfig).map (fun r => r.premiumBondsBalance)
      = [60000] ∧
    (50000 : Int) < 60000 := by
  refine ⟨?_, by norm_num⟩
  norm_num [runProjection, runProjectionGo, initialBalances, stepYear, applyGrowth,
    growIsa, growSipp, growPremiumBonds, growCash, projectYear, applyContributions,
    contribIsa, contribSipp, contribCash, contributionsOngoing, applyLumpSums,
    truthyRat, getPensionIncome, retirementStep, resolveDrawdownRate, inflationFactor,
    mainGap, accountSpecificDraws, accountSpecificTake, effectiveWithdrawalOrder,
    executeWithdrawal, executeWithdrawalGo, customDrawdowns, applyCustomDrawdown,
    getIsaDrawdownAllowed, getSippDrawdownAllowed, orElseNum,
    premiumBondsDrawdownAllowed, jsRound, PB_CAP, PotMap.get, PotMap.set, PotMap.zero,
    YearOverride.empty, pbLumpSumConfig, baseConfig]

end FIRE2
